import Mathlib

/-!
Verification of the GameTrainer native core against its specification.

Shallow embedding of the three native components:
* `src/cpp/memory_manager.cpp` — the `GameTrainer::Process` class and the
  `gt_*` C interface (attach/detach, read/write, process lookup);
* `src/hook.c` — the DXGI `Present` vtable hook (`InstallPresentHook`,
  `RemovePresentHook`);
* `src/cpp/input.cpp` — the input synthesizer (`SendKey`,
  `JitteredMouseMove`), which per the repository changelog is the current
  input implementation ("C++ input only").

OS calls (`OpenProcess`, `ReadProcessMemory`, `IsWow64Process`,
`D3D11CreateDeviceAndSwapChain`, `VirtualProtect`, RNG draws) are modelled
as explicit parameters carrying the answer the OS gives to that call, so
every definition is a pure function of the program state and the OS answers.
-/

set_option linter.unusedVariables false

namespace GameTrainer

/-- Answer the OS gives to one `ReadProcessMemory` / `WriteProcessMemory`
call: the `BOOL` return value and the `bytesRead` / `bytesWritten`
out-parameter. -/
structure OsTransfer where
  ok : Bool
  bytes : Nat
  deriving DecidableEq

/-- Answer the OS gives to `IsWow64Process(handle_, &isWow64)`: the `BOOL`
return value and the `isWow64` out-parameter. -/
structure OsWowProbe where
  ok : Bool
  isWow64 : Bool
  deriving DecidableEq

/-- State of a `GameTrainer::Process` instance (`memory_manager.h`): the
fields `handle_` (`HANDLE`, `none` models `nullptr`), `pid_` (`DWORD`) and
`is64bit_` (`bool`). -/
structure Process where
  handle : Option Nat
  pid : Nat
  is64bit : Bool
  deriving DecidableEq

/-- `Process::Process()`: the default member initializers of
`memory_manager.h` (`handle_ = nullptr`, `pid_ = 0`, `is64bit_ = false`). -/
def Process.init : Process :=
  { handle := none, pid := 0, is64bit := false }

/-- `Process::Detach` (`memory_manager.cpp` lines 64–71): if `handle_` is
non-null it is passed to `CloseHandle` and nulled; `pid_` and `is64bit_` are
reset unconditionally. Returns the new state together with the list of OS
handles passed to `CloseHandle` during the call. -/
def Process.Detach (p : Process) : Process × List Nat :=
  match p.handle with
  | some h => ({ handle := none, pid := 0, is64bit := false }, [h])
  | none => ({ handle := none, pid := 0, is64bit := false }, [])

/-- `Process::Attach(DWORD pid)` (`memory_manager.cpp` lines 37–62).
`openResult` is the `HANDLE` returned by `OpenProcess` (`none` models a
`NULL` return); `probe` is the OS answer to `IsWow64Process`. The method
first calls `Detach()`, then assigns `handle_ = OpenProcess(...)`; on null
it returns `false`; otherwise it sets `pid_`, probes bitness (falling back
to `is64bit_ = false` when the probe call itself fails) and returns `true`.
The result is the returned `bool`, the new state, and the handles closed by
the initial `Detach()`. -/
def Process.Attach (p : Process) (pid : Nat) (openResult : Option Nat)
    (probe : OsWowProbe) : Bool × Process × List Nat :=
  let d := p.Detach
  match openResult with
  | none => (false, d.1, d.2)
  | some h =>
    let p2 : Process := { handle := some h, pid := pid, is64bit := d.1.is64bit }
    if probe.ok then (true, { p2 with is64bit := !probe.isWow64 }, d.2)
    else (true, { p2 with is64bit := false }, d.2)

/-- `Process::Read` (`memory_manager.cpp` lines 73–79): fails when
`handle_` is null; otherwise succeeds exactly when `ReadProcessMemory`
returned nonzero AND `bytesRead == sz`. `addr` mirrors the address argument
(it does not influence the success logic in the source). -/
def Process.Read (p : Process) (addr : Nat) (os : OsTransfer) (sz : Nat) : Bool :=
  match p.handle with
  | none => false
  | some _ => os.ok && os.bytes == sz

/-- `Process::Write` (`memory_manager.cpp` lines 81–87): mirror image of
`Process::Read` with `WriteProcessMemory` / `bytesWritten`. -/
def Process.Write (p : Process) (addr : Nat) (os : OsTransfer) (sz : Nat) : Bool :=
  match p.handle with
  | none => false
  | some _ => os.ok && os.bytes == sz

/-- `gt_read` (`memory_manager.cpp` lines 157–160): raw-handle variant, no
null check; succeeds exactly when the OS call succeeded and moved `sz`
bytes. -/
def gt_read (h : Nat) (addr : Nat) (os : OsTransfer) (sz : Nat) : Bool :=
  os.ok && os.bytes == sz

/-- `gt_write` (`memory_manager.cpp` lines 162–165): mirror image of
`gt_read`. -/
def gt_write (h : Nat) (addr : Nat) (os : OsTransfer) (sz : Nat) : Bool :=
  os.ok && os.bytes == sz

/-- One `PROCESSENTRY32` of the toolhelp snapshot: the `szExeFile` image
name and the `th32ProcessID`. -/
structure ProcEntry where
  szExeFile : String
  th32ProcessID : Nat
  deriving DecidableEq

/-- `gt_find_process_id` (`memory_manager.cpp` lines 105–124): walks the
process snapshot in enumeration order (`Process32First` / `Process32Next`)
and returns the pid of the first entry whose image name compares equal to
`name` under `strcmp` — byte-exact, case-sensitive comparison. Returns
`none` when no entry matches. -/
def gt_find_process_id (snapshot : List ProcEntry) (name : String) : Option Nat :=
  match snapshot with
  | [] => none
  | pe :: rest =>
    if pe.szExeFile == name then some pe.th32ProcessID
    else gt_find_process_id rest name

/-- Case-insensitive image-name equality: the case policy the specification
states for the reference platform ("case-insensitive on the reference
platform"). Stated from the spec's words, for comparison with the
`strcmp`-based `gt_find_process_id` above. -/
def matchesCaseInsensitive (a b : String) : Bool :=
  a.data.map Char.toLower == b.data.map Char.toLower

/-- Distinguished numeric value standing for the code address of
`HookedPresent` (`hook.c` lines 14–22), the replacement function written
into the vtable slot. -/
def HookedPresentPtr : Nat := 1

/-- The globals of `hook.c` plus the observable state of the hooked object:
`slot` is the current contents of `vtable[8]` (the `Present` entry),
`pSwapChain` records whether the global `g_pSwapChain` is non-NULL,
`originalPresent` is the global `g_originalPresent`, and `releases` counts
the `Release()` calls issued on the swap chain (each one drops a COM
reference). -/
structure HookState where
  slot : Nat
  pSwapChain : Bool
  originalPresent : Nat
  releases : Nat
  deriving DecidableEq

/-- Initial state of `hook.c`: `g_pSwapChain = NULL`,
`g_originalPresent = NULL` (modelled as 0), an arbitrary slot value 0, no
`Release` issued yet. -/
def HookState.init : HookState :=
  { slot := 0, pSwapChain := false, originalPresent := 0, releases := 0 }

/-- `InstallPresentHook` (`hook.c` lines 24–61). `creation` is the outcome
of `D3D11CreateDeviceAndSwapChain`: `none` models `FAILED(...)` (the
function returns `FALSE` and touches nothing else), `some v` models success
with a swap chain whose `vtable[8]` currently holds the pointer value `v`.
On success the code saves `vtable[8]` into `g_originalPresent` and
overwrites the slot with `HookedPresent`, then returns `TRUE`. `protectOk`
is the `BOOL` that `VirtualProtect` returns; the source discards that
return value, so it influences nothing. -/
def InstallPresentHook (creation : Option Nat) (protectOk : Bool)
    (s : HookState) : Bool × HookState :=
  match creation with
  | none => (false, s)
  | some v =>
    (true, { slot := HookedPresentPtr, pSwapChain := true,
             originalPresent := v, releases := s.releases })

/-- `RemovePresentHook` (`hook.c` lines 63–77): returns immediately when
`g_pSwapChain` is NULL; otherwise writes `g_originalPresent` back into
`vtable[8]` and calls `g_pSwapChain->Release()`. Note the source does NOT
reset `g_pSwapChain` (or `g_originalPresent`) after the `Release()` call.
`protectOk` is the discarded `VirtualProtect` return value, as in
`InstallPresentHook`. -/
def RemovePresentHook (protectOk : Bool) (s : HookState) : HookState :=
  if s.pSwapChain then
    { s with slot := s.originalPresent, releases := s.releases + 1 }
  else s

/-- One synthetic keyboard event record: an `INPUT` with
`type = INPUT_KEYBOARD`, keeping the fields the code sets — `ki.wVk`,
`ki.wScan`, and whether `KEYEVENTF_SCANCODE` / `KEYEVENTF_KEYUP` are set in
`ki.dwFlags`. -/
structure KeyInput where
  wVk : Nat
  wScan : Nat
  scancodeFlag : Bool
  keyupFlag : Bool
  deriving DecidableEq

/-- Observable trace of one `SendKey` call: the key-down record sent first,
the sleep duration in milliseconds, and the key-up record sent last. -/
structure SendKeyTrace where
  down : KeyInput
  delayMs : Nat
  up : KeyInput
  deriving DecidableEq

/-- `SendKey` (`cpp/input.cpp` lines 88–118). `layout` is the current
keyboard layout, as the translation `MapVirtualKey(·, MAPVK_VK_TO_VSC)`
performs; the code consults it at call time (`scanCode` is computed inside
the call, never cached). Both events carry `wVk = 0`, the translated scan
code, and the `KEYEVENTF_SCANCODE` flag; the up event adds
`KEYEVENTF_KEYUP`; the sleep between them is 10 ms. -/
def SendKey (layout : Nat → Nat) (vkCode : Nat) : SendKeyTrace :=
  let scanCode := layout vkCode
  { down := { wVk := 0, wScan := scanCode, scancodeFlag := true, keyupFlag := false },
    delayMs := 10,
    up := { wVk := 0, wScan := scanCode, scancodeFlag := true, keyupFlag := true } }

/-- `JitteredMouseMove` (`cpp/input.cpp` lines 24–39). The RNG draws are
explicit parameters: `steps` is the `step_dist(10, 15)` draw made once per
call, and `jx i` / `jy i` are the `jitter_dist(-1, 1)` draws of loop
iteration `i`. The float expression `(int)((float)i / steps * target)` is
abstracted as `lerpX i` / `lerpY i` (constrained by `FloatLerp` below).
Each iteration calls `SendMouseMove(x, y)`, which emits one
`MOUSEEVENTF_MOVE` event — a RELATIVE cursor displacement of `(x, y)`. The
result is the list of emitted displacements, in order. -/
def JitteredMouseMove (steps : Nat) (lerpX lerpY : Nat → Int)
    (jx jy : Nat → Int) : List (Int × Int) :=
  (List.range steps).map
    (fun k => (lerpX (k + 1) + jx (k + 1), lerpY (k + 1) + jy (k + 1)))

/-- Constraint tying an abstract lerp function to the source expression
`(int)((float)i / steps * target)`: single-precision rounding keeps the
product within a tiny relative error of the exact rational value
`i * target / steps`, and the C truncation toward zero moves it by less
than one more unit, so the computed integer always lies within 2 units of
the exact interpolation. Stated multiplied through by `steps` to stay in
integer arithmetic. -/
def FloatLerp (steps : Nat) (target : Int) (lerp : Nat → Int) : Prop :=
  ∀ i, 1 ≤ i → i ≤ steps →
    (i : Int) * target - 2 * steps ≤ (steps : Int) * lerp i ∧
    (steps : Int) * lerp i ≤ (i : Int) * target + 2 * steps

/-- Net cursor displacement produced by a list of relative
`MOUSEEVENTF_MOVE` events: the componentwise sum of the emitted
displacements. -/
def cumulativeDisplacement (moves : List (Int × Int)) : Int × Int :=
  ((moves.map Prod.fst).sum, (moves.map Prod.snd).sum)

end GameTrainer

namespace GameTrainer

/-- C1: A `Process::Read` or `Process::Write` call succeeds if and only if
the instance is attached (non-null handle), the OS transfer reports
success, and the transferred byte count equals the requested length; a
detached instance always fails, and a success report with fewer bytes than
requested is reported as failure. The raw-handle `gt_read` / `gt_write`
succeed exactly when the OS call succeeds with the full byte count. -/
theorem read_write_success_iff_exact (p : Process) (addr : Nat)
    (os : OsTransfer) (sz : Nat) :
    (p.Read addr os sz = true ↔
      p.handle.isSome = true ∧ os.ok = true ∧ os.bytes = sz) ∧
    (p.Write addr os sz = true ↔
      p.handle.isSome = true ∧ os.ok = true ∧ os.bytes = sz) ∧
    (gt_read 0 addr os sz = true ↔ os.ok = true ∧ os.bytes = sz) ∧
    (gt_write 0 addr os sz = true ↔ os.ok = true ∧ os.bytes = sz) := by
  refine ⟨?_, ?_, ?_, ?_⟩ <;>
    cases hh : p.handle <;>
      simp [Process.Read, Process.Write, gt_read, gt_write, hh]

/-- C7: `Detach()` is idempotent — a second call leaves the state unchanged
and closes no handle; after `Detach()` the handle is released (`none`), the
pid is zero and the bitness flag is at its 32-bit default; and every
subsequent `Read` / `Write` fails (also after a failed re-`Attach`), for
every OS answer. -/
theorem detach_idempotent_and_invalidates (p : Process) (addr : Nat)
    (os : OsTransfer) (sz : Nat) (pid : Nat) (probe : OsWowProbe) :
    (p.Detach.1.Detach.1 = p.Detach.1) ∧
    (p.Detach.1.Detach.2 = []) ∧
    p.Detach.1.handle = none ∧ p.Detach.1.pid = 0 ∧
    p.Detach.1.is64bit = false ∧
    p.Detach.1.Read addr os sz = false ∧
    p.Detach.1.Write addr os sz = false ∧
    ((p.Detach.1.Attach pid none probe).2.1.Read addr os sz = false) := by
  cases hh : p.handle <;>
    simp [Process.Detach, Process.Attach, Process.Read, Process.Write, hh]

/-- C9: when `OpenProcess` succeeds but the `IsWow64Process` probe call
fails, `Attach(pid)` still returns `true` and the bitness flag takes its
explicit 32-bit fallback (`is64bit_ = false`, so `Is64Bit()` is `false`). -/
theorem attach_probe_failure_defaults_32bit (p : Process) (pid h : Nat)
    (probe : OsWowProbe) (hprobe : probe.ok = false) :
    (p.Attach pid (some h) probe).1 = true ∧
    (p.Attach pid (some h) probe).2.1.is64bit = false ∧
    (p.Attach pid (some h) probe).2.1.pid = pid := by
  simp [Process.Attach, hprobe]

/-- C9 witness: a concrete instantiation — fresh instance, pid 7, OS handle
3, probe call fails. -/
theorem attach_probe_failure_defaults_32bit_witness :
    (Process.init.Attach 7 (some 3) ⟨false, true⟩).1 = true ∧
    (Process.init.Attach 7 (some 3) ⟨false, true⟩).2.1.is64bit = false ∧
    (Process.init.Attach 7 (some 3) ⟨false, true⟩).2.1.pid = 7 :=
  attach_probe_failure_defaults_32bit Process.init 7 3 ⟨false, true⟩ rfl

/-- C10: `Attach(pid)` begins with `Detach()`: whatever handle the instance
held is closed, on success and on failure alike; and a failed
`OpenProcess` leaves the instance fully detached — null handle, pid zero,
bitness false. -/
theorem attach_failure_leaves_detached (p : Process) (pid : Nat)
    (probe : OsWowProbe) :
    (p.Attach pid none probe).1 = false ∧
    (p.Attach pid none probe).2.1 = Process.init ∧
    (∀ openResult : Option Nat,
      (p.Attach pid openResult probe).2.2 = p.handle.toList) := by
  refine ⟨?_, ?_, ?_⟩
  · cases hh : p.handle <;> simp [Process.Attach, Process.Detach, hh]
  · cases hh : p.handle <;> simp [Process.Attach, Process.Detach, Process.init, hh]
  · intro openResult
    cases hh : p.handle <;> cases openResult <;> cases hpr : probe.ok <;>
      simp [Process.Attach, Process.Detach, hh, hpr]

/-- C3: a successful `InstallPresentHook()` followed immediately by
`RemovePresentHook()` restores the vtable `Present` slot to bit-for-bit the
pointer value captured before the install, for every initial slot value
(and every prior global state and protection-call outcome). -/
theorem install_uninstall_restores_slot (v : Nat) (pr1 pr2 : Bool)
    (s : HookState) :
    (InstallPresentHook (some v) pr1 s).1 = true ∧
    (RemovePresentHook pr2 (InstallPresentHook (some v) pr1 s).2).slot = v := by
  simp [InstallPresentHook, RemovePresentHook]

/-- C4 counterexample trace: install (fresh swap chain whose slot holds 42)
then uninstall, then uninstall again. The claim says the second
`RemovePresentHook()` is a no-op; in the code `g_pSwapChain` is never reset
to NULL, so the second call passes the guard and issues a second
`Release()` on the swap chain — the state changes (`releases` goes from 1
to 2). Slot and saved original pointer are indeed unchanged. -/
theorem uninstall_second_call_releases_again :
    (RemovePresentHook true (RemovePresentHook true
        (InstallPresentHook (some 42) true HookState.init).2)).releases = 2 ∧
    (RemovePresentHook true
        (InstallPresentHook (some 42) true HookState.init).2).releases = 1 ∧
    (RemovePresentHook true
        (InstallPresentHook (some 42) true HookState.init).2).pSwapChain = true ∧
    RemovePresentHook true (RemovePresentHook true
        (InstallPresentHook (some 42) true HookState.init).2) ≠
      RemovePresentHook true
        (InstallPresentHook (some 42) true HookState.init).2 := by
  decide

/-- C5 counterexample: a snapshot whose only entry is `Notepad.exe` with
pid 4321, queried for `notepad.exe`. The names match case-insensitively,
yet `gt_find_process_id` (which uses `strcmp`) returns `none` — so the
lookup is NOT case-insensitive and NotFound does not coincide with "no
case-insensitive match". -/
theorem find_process_id_not_case_insensitive :
    gt_find_process_id [⟨"Notepad.exe", 4321⟩] "notepad.exe" = none ∧
    matchesCaseInsensitive "Notepad.exe" "notepad.exe" = true := by
  constructor
  · rfl
  · decide

/-- C5 amended: `gt_find_process_id` returns the pid of the first snapshot
entry whose image name is byte-exact (case-sensitively, `strcmp`) equal to
the query, and returns NotFound (`none`) if and only if no entry matches
exactly. -/
theorem find_process_id_first_exact_match (snapshot : List ProcEntry)
    (name : String) :
    gt_find_process_id snapshot name =
      (snapshot.find? (fun pe => pe.szExeFile == name)).map
        ProcEntry.th32ProcessID ∧
    (gt_find_process_id snapshot name = none ↔
      ∀ pe ∈ snapshot, pe.szExeFile ≠ name) := by
  have hmain : gt_find_process_id snapshot name =
      (snapshot.find? (fun pe => pe.szExeFile == name)).map
        ProcEntry.th32ProcessID := by
    induction snapshot with
    | nil => rfl
    | cons pe rest ih =>
      by_cases h : pe.szExeFile == name
      · simp [gt_find_process_id, List.find?, h]
      · simp only [gt_find_process_id, List.find?, h, if_false]
        simpa using ih
  refine ⟨hmain, ?_⟩
  rw [hmain]
  simp [List.find?_eq_none]

/-- C6 counterexample: the swap-chain creation succeeds but the OS denies
the page-protection change (`VirtualProtect` returns `FALSE`);
`InstallPresentHook` nevertheless returns `TRUE`, because the source
discards the `VirtualProtect` return value — contrary to the claim that a
denied protection change is reported as `ProtectionChangeFailed`. -/
theorem install_ignores_protection_denial :
    (InstallPresentHook (some 42) false HookState.init).1 = true := by
  rfl

/-- C8: for every keyboard layout and every virtual-key code, `SendKey`
translates the code through the layout at send time and emits a scan-code
key-down (`KEYEVENTF_SCANCODE` set, `wVk = 0`, `wScan` = the translated
code), sleeps 10 ms, then emits the matching scan-code key-up
(`KEYEVENTF_KEYUP` added) carrying the same scan code. -/
theorem sendKey_emits_scancode_events (layout : Nat → Nat) (vkCode : Nat) :
    (SendKey layout vkCode).down.wScan = layout vkCode ∧
    (SendKey layout vkCode).down.scancodeFlag = true ∧
    (SendKey layout vkCode).down.keyupFlag = false ∧
    (SendKey layout vkCode).down.wVk = 0 ∧
    (SendKey layout vkCode).delayMs = 10 ∧
    (SendKey layout vkCode).up.wScan = layout vkCode ∧
    (SendKey layout vkCode).up.scancodeFlag = true ∧
    (SendKey layout vkCode).up.keyupFlag = true ∧
    (SendKey layout vkCode).up.wVk = 0 :=
  ⟨rfl, rfl, rfl, rfl, rfl, rfl, rfl, rfl, rfl⟩

/-- C2: the convergence part of the claim fails on the code. The emitted
sub-moves are RELATIVE displacements (`MOUSEEVENTF_MOVE`), yet each one
carries the absolute interpolation waypoint `i/N` of the target, so the
cumulative displacement is about `(N+1)/2` times the requested move. For
target `(100, 0)` and the step draw `N = 10`: whatever the float lerp
(within `FloatLerp`'s generous 2-unit slack) and whatever the per-step
jitter draws in `[-1, 1]`, the cumulative x-displacement is at least 500 —
more than 1 unit (the per-step jitter bound) away from the claimed final
displacement of 100. -/
theorem jittered_move_cumulative_overshoot (lerpX lerpY jx jy : Nat → Int)
    (hL : FloatLerp 10 100 lerpX)
    (hjx : ∀ i, -1 ≤ jx i ∧ jx i ≤ 1) :
    500 ≤ (cumulativeDisplacement (JitteredMouseMove 10 lerpX lerpY jx jy)).1 ∧
    1 < |(cumulativeDisplacement (JitteredMouseMove 10 lerpX lerpY jx jy)).1 - 100| := by
  have hx : (cumulativeDisplacement (JitteredMouseMove 10 lerpX lerpY jx jy)).1 =
      ((List.range 10).map (fun k => lerpX (k + 1) + jx (k + 1))).sum := rfl
  have hlow : ((List.range 10).map (fun k : Nat => 10 * ((k : Int) + 1) - 3)).sum ≤
      ((List.range 10).map (fun k => lerpX (k + 1) + jx (k + 1))).sum := by
    apply List.sum_le_sum
    intro k hk
    have hk10 : k < 10 := List.mem_range.mp hk
    have hLk := hL (k + 1) (by omega) (by omega)
    have hJk := hjx (k + 1)
    push_cast at hLk hJk ⊢
    omega
  have hval : ((List.range 10).map (fun k : Nat => 10 * ((k : Int) + 1) - 3)).sum = 520 := by
    decide
  have habs := le_abs_self
    ((cumulativeDisplacement (JitteredMouseMove 10 lerpX lerpY jx jy)).1 - 100)
  constructor
  · rw [hx]; linarith
  · rw [hx] at habs ⊢
    linarith

/-- C2 witness: the representative lerp `i ↦ 10 i` (exact interpolation for
target 100 in 10 steps) and all-zero jitter draws satisfy the hypotheses,
and the cumulative displacement overshoots as the theorem states. -/
theorem jittered_move_cumulative_overshoot_witness :
    FloatLerp 10 100 (fun i => 10 * (i : Int)) ∧
    (∀ i, -1 ≤ (fun _ : Nat => (0 : Int)) i ∧ (fun _ : Nat => (0 : Int)) i ≤ 1) ∧
    500 ≤ (cumulativeDisplacement (JitteredMouseMove 10 (fun i => 10 * (i : Int))
      (fun _ => 0) (fun _ => 0) (fun _ => 0))).1 ∧
    1 < |(cumulativeDisplacement (JitteredMouseMove 10 (fun i => 10 * (i : Int))
      (fun _ => 0) (fun _ => 0) (fun _ => 0))).1 - 100| := by
  have hF : FloatLerp 10 100 (fun i => 10 * (i : Int)) := by
    intro i h1 h2
    push_cast
    constructor <;> linarith
  have hJ : ∀ i, -1 ≤ (fun _ : Nat => (0 : Int)) i ∧ (fun _ : Nat => (0 : Int)) i ≤ 1 := by
    intro i
    constructor <;> norm_num
  exact ⟨hF, hJ, jittered_move_cumulative_overshoot (fun i => 10 * (i : Int))
    (fun _ => 0) (fun _ => 0) (fun _ => 0) hF hJ⟩

/-- C6 amended: `InstallPresentHook` fails (the `ObjectCreationFailed`
case) exactly when the presentation object cannot be obtained from the
graphics subsystem; whenever the object is obtained it reports success,
regardless of whether the page-protection change succeeded. -/
theorem install_success_iff_creation (creation : Option Nat)
    (protectOk : Bool) (s : HookState) :
    (InstallPresentHook creation protectOk s).1 = creation.isSome := by
  cases creation <;> rfl

end GameTrainer
